import Mathlib

/-!
Shallow embedding of the stock-backtest frontend.

The embedded code:
* `calculateSharpeRatio` from `src/frontend/src/components/ResultsDisplay.jsx`
  (lines 29-54), in namespace `ResultsDisplay`, together with the Sharpe-ratio
  selection of `renderPerformanceStats` (lines 169-233);
* the almost verbatim duplicate `calculateSharpeRatio` from the unnamed results
  component `src/unnamed/part_002` (lines 28-60), in namespace
  `ResultsDisplayDup`, together with the selection of `renderPerformanceCard`;
* the backtest form `src/unnamed/part_001`: `handleAddAsset`, `validateForm`
  and `handleSubmit`, in namespace `BacktestForm`.

JavaScript numbers are idealised as real numbers (`ℝ`) on the results side,
where `Math.sqrt` and fractional `Math.pow` appear, and as rationals (`ℚ`) on
the form side, where only field arithmetic and comparisons appear, so that the
form model stays fully executable.  A JS value that may be `null`/`undefined`
is an `Option`.
-/

/-- The slice of a performance report object that the Sharpe-ratio code reads:
its `values` array (absent or `null` modelled as `none`) and its backend
supplied `sharpe_ratio` (`null`/`undefined` modelled as `none`).  The other
report fields (`dates`, `final_value`, `total_return`, `annualized_return`,
`max_drawdown`) are never read by `calculateSharpeRatio` or by the Sharpe
selection and are omitted. -/
structure PerformanceData where
  values : Option (List ℝ)
  sharpe_ratio : Option ℝ

namespace ResultsDisplay

/-- The daily-return loop of `calculateSharpeRatio` (ResultsDisplay.jsx lines
37-40): `for (let i = 1; i < values.length; i++) returns.push((values[i] -
values[i-1]) / values[i-1])`. -/
noncomputable def dailyReturns : List ℝ → List ℝ
  | [] => []
  | [_] => []
  | v0 :: v1 :: rest => (v1 - v0) / v0 :: dailyReturns (v1 :: rest)

open Classical in
/-- `calculateSharpeRatio` of ResultsDisplay.jsx lines 29-54.  A missing
(`null`) argument or a missing `values` field returns `null`; so does a
`values` array shorter than 2, an empty return series, and a zero daily
volatility.  Otherwise the annualised excess-return ratio is returned. -/
noncomputable def calculateSharpeRatio (performanceData : Option PerformanceData)
    (riskFreeRate : ℝ := 0.02) : Option ℝ :=
  match performanceData with
  | none => none
  | some pd =>
    match pd.values with
    | none => none
    | some values =>
      if values.length < 2 then none
      else
        let returns := dailyReturns values
        if returns.length = 0 then none
        else
          let meanDailyReturn := returns.foldl (· + ·) 0 / (returns.length : ℝ)
          let variance :=
            (returns.map (fun ret => (ret - meanDailyReturn) ^ 2)).foldl (· + ·) 0
              / (returns.length : ℝ)
          let dailyVolatility := Real.sqrt variance
          if dailyVolatility = 0 then none
          else
            let dailyRiskFreeRate := (1 + riskFreeRate) ^ ((1 : ℝ) / 252) - 1
            some ((meanDailyReturn - dailyRiskFreeRate) / dailyVolatility * Real.sqrt 252)

open Classical in
/-- The Sharpe-ratio selection of `renderPerformanceStats` (ResultsDisplay.jsx
lines 172-173): `const sharpeRatio = performanceData.sharpe_ratio ||
calculatedSharpeRatio`.  A JS number is truthy exactly when it is neither `0`
nor `NaN`, and `null`/`undefined` are falsy, so the backend value is kept only
when present and nonzero. -/
noncomputable def displayedSharpeRatio (pd : PerformanceData) : Option ℝ :=
  let calculatedSharpeRatio := calculateSharpeRatio (some pd)
  match pd.sharpe_ratio with
  | some x => if x = 0 then calculatedSharpeRatio else some x
  | none => calculatedSharpeRatio

end ResultsDisplay

namespace ResultsDisplayDup

/-- The daily-return loop of the duplicated `calculateSharpeRatio`
(src/unnamed/part_002 lines 37-40). -/
noncomputable def dailyReturns : List ℝ → List ℝ
  | [] => []
  | [_] => []
  | v0 :: v1 :: rest => (v1 - v0) / v0 :: dailyReturns (v1 :: rest)

open Classical in
/-- `calculateSharpeRatio` of src/unnamed/part_002 lines 28-60, the second,
near-verbatim copy of the same estimator. -/
noncomputable def calculateSharpeRatio (performanceData : Option PerformanceData)
    (riskFreeRate : ℝ := 0.02) : Option ℝ :=
  match performanceData with
  | none => none
  | some pd =>
    match pd.values with
    | none => none
    | some values =>
      if values.length < 2 then none
      else
        let returns := dailyReturns values
        if returns.length = 0 then none
        else
          let meanDailyReturn := returns.foldl (· + ·) 0 / (returns.length : ℝ)
          let variance :=
            (returns.map (fun ret => (ret - meanDailyReturn) ^ 2)).foldl (· + ·) 0
              / (returns.length : ℝ)
          let dailyVolatility := Real.sqrt variance
          if dailyVolatility = 0 then none
          else
            let dailyRiskFreeRate := (1 + riskFreeRate) ^ ((1 : ℝ) / 252) - 1
            some ((meanDailyReturn - dailyRiskFreeRate) / dailyVolatility * Real.sqrt 252)

open Classical in
/-- The Sharpe-ratio selection of `renderPerformanceCard` (src/unnamed/part_002
lines 153-154): `const sharpeRatio = performanceData.sharpe_ratio ||
calculatedSharpeRatio`. -/
noncomputable def displayedSharpeRatio (pd : PerformanceData) : Option ℝ :=
  let calculatedSharpeRatio := calculateSharpeRatio (some pd)
  match pd.sharpe_ratio with
  | some x => if x = 0 then calculatedSharpeRatio else some x
  | none => calculatedSharpeRatio

end ResultsDisplayDup

/-- Spec-side arithmetic mean of a list of reals. -/
noncomputable def listMean (l : List ℝ) : ℝ := l.sum / (l.length : ℝ)

/-- Spec-side population variance of a list of reals. -/
noncomputable def popVariance (l : List ℝ) : ℝ :=
  (l.map (fun x => (x - listMean l) ^ 2)).sum / (l.length : ℝ)

/-- Spec-side population standard deviation of a list of reals. -/
noncomputable def popStdDev (l : List ℝ) : ℝ := Real.sqrt (popVariance l)

/-- Spec-side daily simple return series: `r[i] = (v[i] - v[i-1]) / v[i-1]`
for `i = 1 .. n-1`, written as a comprehension over consecutive pairs. -/
noncomputable def specReturns (v : List ℝ) : List ℝ :=
  (v.zip v.tail).map (fun p => (p.2 - p.1) / p.1)

/-- Embedding of JavaScript `String.prototype.trim()`: drop leading and
trailing whitespace.  Defined structurally over the character list so that it
evaluates inside the kernel. -/
def jsTrim (s : String) : String :=
  ⟨((s.data.dropWhile Char.isWhitespace).reverse.dropWhile Char.isWhitespace).reverse⟩

/-- Embedding of JavaScript `String.prototype.toUpperCase()` (for the ASCII
tickers the form handles), defined structurally over the character list. -/
def jsToUpper (s : String) : String := ⟨s.data.map Char.toUpper⟩

namespace BacktestForm

/-- A numeric text field of the form, abstracted by the only two observations
the source makes of it: whether its trimmed text is empty, and the value
`parseFloat` yields on it (`nan` when no parse is possible).  Every concrete
string contents falls into exactly one of the three cases. -/
inductive NumField
  | empty
  | nan
  | val (x : ℚ)
deriving DecidableEq

/-- `parseFloat` applied to the field, as used by `handleSubmit`; `none` stands
for `NaN` (in particular `parseFloat('')` is `NaN`). -/
def NumField.parseFloat : NumField → Option ℚ
  | NumField.empty => none
  | NumField.nan => none
  | NumField.val x => some x

/-- One row of the `assets` state (src/unnamed/part_001 line 18): a ticker
text field and a weight text field. -/
structure Asset where
  ticker : String
  weight : NumField
deriving DecidableEq

/-- The component state read by `validateForm` and `handleSubmit`:
`assets`, `initialInvestment`, `startDate`, `endDate` (dates modelled as
integer day stamps, `none` for a cleared picker), `benchmarkTicker` and
`rebalance` (src/unnamed/part_001 lines 18-24). -/
structure FormState where
  assets : List Asset
  initialInvestment : NumField
  startDate : Option ℤ
  endDate : Option ℤ
  benchmarkTicker : String
  rebalance : String
deriving DecidableEq

/-- Which keys of the `newErrors` object `validateForm` sets: the two indexed
families `asset_ticker_i` / `asset_weight_i` are recorded as index lists, the
rest as flags.  The attached message strings are constants in the source and
are not modelled. -/
structure FormErrors where
  asset_ticker : List ℕ
  asset_weight : List ℕ
  totalWeight : Bool
  assets : Bool
  initialInvestment : Bool
  startDate : Bool
  endDate : Bool
  dateRange : Bool
deriving DecidableEq

/-- The `assets.forEach((asset, index) => ...)` pass of `validateForm`
(src/unnamed/part_001 lines 47-65), returning the ticker-error indices, the
weight-error indices, and the accumulated `totalWeight` (a weight contributes
exactly when it parses to a value in `(0, 1]`). -/
def checkAssets : ℕ → List Asset → List ℕ × List ℕ × ℚ
  | _, [] => ([], [], 0)
  | i, a :: rest =>
    let acc := checkAssets (i + 1) rest
    let tErrs := if jsTrim a.ticker = "" then i :: acc.1 else acc.1
    match a.weight with
    | NumField.empty => (tErrs, i :: acc.2.1, acc.2.2)
    | NumField.nan => (tErrs, i :: acc.2.1, acc.2.2)
    | NumField.val x =>
      if x ≤ 0 ∨ 1 < x then (tErrs, i :: acc.2.1, acc.2.2)
      else (tErrs, acc.2.1, acc.2.2 + x)

/-- `validateForm` of src/unnamed/part_001 lines 42-104: per-asset checks, the
weight-sum tolerance check `Math.abs(totalWeight - 1.0) > 0.0001` guarded by
`assets.length > 0`, the empty-asset-list check, the initial-investment check,
and the date checks (`startDate >= endDate` sets `dateRange`).  Returns the
error object together with `isValid`, which the source sets to `false`
whenever any error key is recorded. -/
def validateForm (s : FormState) : FormErrors × Bool :=
  let ck := checkAssets 0 s.assets
  let twErr := decide (0 < s.assets.length) && decide ((1 : ℚ) / 10000 < |ck.2.2 - 1|)
  let assetsErr := decide (s.assets.length = 0)
  let invErr :=
    match s.initialInvestment with
    | NumField.empty => true
    | NumField.nan => true
    | NumField.val x => decide (x ≤ 0)
  let sdErr := decide (s.startDate = none)
  let edErr := decide (s.endDate = none)
  let drErr :=
    match s.startDate, s.endDate with
    | some d1, some d2 => decide (d2 ≤ d1)
    | _, _ => false
  (⟨ck.1, ck.2.1, twErr, assetsErr, invErr, sdErr, edErr, drErr⟩,
    ck.1.isEmpty && ck.2.1.isEmpty && !twErr && !assetsErr && !invErr && !sdErr && !edErr
      && !drErr)

/-- One entry of the submitted `assets` array (src/unnamed/part_001 line 113):
`{ ticker: a.ticker.toUpperCase(), weight: parseFloat(a.weight) }`. -/
structure SubmittedAsset where
  ticker : String
  weight : Option ℚ
deriving DecidableEq

/-- The `formData` object `handleSubmit` passes to `onSubmit`
(src/unnamed/part_001 lines 112-119).  Dates are carried through as the day
stamps of the pickers; the `'yyyy-MM-dd'` formatting of line 109-110 is an
injective presentation of the same value and is not modelled. -/
structure FormData where
  assets : List SubmittedAsset
  initial_investment : Option ℚ
  start_date : Option ℤ
  end_date : Option ℤ
  benchmark_ticker : Option String
  rebalance : Option String
deriving DecidableEq

/-- `handleSubmit` of src/unnamed/part_001 lines 106-122: `onSubmit(formData)`
is reached exactly when `validateForm()` returns `true`; the result is the
submitted payload (`none` when nothing is submitted). -/
def handleSubmit (s : FormState) : Option FormData :=
  if (validateForm s).2 then
    some
      { assets := s.assets.map (fun a =>
          { ticker := jsToUpper a.ticker, weight := a.weight.parseFloat }),
        initial_investment := s.initialInvestment.parseFloat,
        start_date := s.startDate,
        end_date := s.endDate,
        benchmark_ticker :=
          if jsTrim s.benchmarkTicker = "" then none
          else some (jsToUpper (jsTrim s.benchmarkTicker)),
        rebalance := if s.rebalance = "None" then none else some s.rebalance }
  else none

/-- `handleAddAsset` of src/unnamed/part_001 lines 32-34: appends a blank row
to `assets`, with no cap on the row count. -/
def handleAddAsset (assets : List Asset) : List Asset :=
  assets ++ [{ ticker := "", weight := NumField.empty }]

/-- The values of the four `<option>` elements of the rebalance select
(src/unnamed/part_001 lines 204-207); the initial state is `'None'`
(line 23), so every reachable `rebalance` state is one of these. -/
def rebalanceOptions : List String := ["None", "Monthly", "Quarterly", "Annually"]

/-- An eight-asset form state, reachable by pressing the always-rendered add
button seven times and filling every row with a weight of 12.5%. -/
def eightAssetState : FormState :=
  { assets :=
      [⟨"AAA", NumField.val (1 / 8)⟩, ⟨"BBB", NumField.val (1 / 8)⟩,
        ⟨"CCC", NumField.val (1 / 8)⟩, ⟨"DDD", NumField.val (1 / 8)⟩,
        ⟨"EEE", NumField.val (1 / 8)⟩, ⟨"FFF", NumField.val (1 / 8)⟩,
        ⟨"GGG", NumField.val (1 / 8)⟩, ⟨"HHH", NumField.val (1 / 8)⟩],
    initialInvestment := NumField.val 10000,
    startDate := some 0,
    endDate := some 365,
    benchmarkTicker := "SPY",
    rebalance := "None" }

/-- A two-asset form state whose weights (0.5 and 0.4) sum to 0.9. -/
def weightSumState : FormState :=
  { assets := [⟨"AAA", NumField.val (1 / 2)⟩, ⟨"BBB", NumField.val (2 / 5)⟩],
    initialInvestment := NumField.val 10000,
    startDate := some 0,
    endDate := some 365,
    benchmarkTicker := "SPY",
    rebalance := "None" }

/-- A one-asset form state whose start date is not earlier than its end date. -/
def invertedDateState : FormState :=
  { assets := [⟨"AAA", NumField.val 1⟩],
    initialInvestment := NumField.val 10000,
    startDate := some 365,
    endDate := some 365,
    benchmarkTicker := "SPY",
    rebalance := "None" }

/-- A valid one-asset form state with a monthly rebalance selection and a
benchmark field holding padded lower-case text. -/
def validMonthlyState : FormState :=
  { assets := [⟨"aapl", NumField.val 1⟩],
    initialInvestment := NumField.val 10000,
    startDate := some 0,
    endDate := some 365,
    benchmarkTicker := " spy ",
    rebalance := "Monthly" }

end BacktestForm

/-! Helper lemmas about the embedded return loop. -/

theorem dailyReturns_length : ∀ l : List ℝ,
    (ResultsDisplay.dailyReturns l).length = l.length - 1
  | [] => rfl
  | [_] => rfl
  | _ :: b :: rest => by
    have ih := dailyReturns_length (b :: rest)
    simp only [ResultsDisplay.dailyReturns, List.length_cons] at ih ⊢
    omega

theorem dailyReturns_eq_specReturns : ∀ v : List ℝ,
    ResultsDisplay.dailyReturns v = specReturns v
  | [] => rfl
  | [_] => rfl
  | a :: b :: rest => by
    have ih := dailyReturns_eq_specReturns (b :: rest)
    simp only [ResultsDisplay.dailyReturns, specReturns, List.tail_cons,
      List.zip_cons_cons, List.map_cons] at ih ⊢
    rw [ih]

theorem dailyReturns_dup_eq : ∀ l : List ℝ,
    ResultsDisplayDup.dailyReturns l = ResultsDisplay.dailyReturns l
  | [] => rfl
  | [_] => rfl
  | _ :: b :: rest => by
    have ih := dailyReturns_dup_eq (b :: rest)
    simp only [ResultsDisplayDup.dailyReturns, ResultsDisplay.dailyReturns]
    rw [ih]

theorem dailyReturns_map_mul (c : ℝ) (hc : c ≠ 0) :
    ∀ l : List ℝ,
      ResultsDisplay.dailyReturns (l.map (fun v => c * v)) = ResultsDisplay.dailyReturns l
  | [] => rfl
  | [_] => rfl
  | a :: b :: rest => by
    have ih := dailyReturns_map_mul c hc (b :: rest)
    simp only [List.map_cons, ResultsDisplay.dailyReturns] at ih ⊢
    rw [ih]
    congr 1
    rw [show c * b - c * a = c * (b - a) by ring, mul_div_mul_left _ _ hc]

/-- C3: the two client-side Sharpe-ratio implementations
(`calculateSharpeRatio` in ResultsDisplay.jsx and `calculateSharpeRatio` in
the other results component, src/unnamed/part_002) compute exactly the same
function: for every performance data object and every risk-free rate, both
return equal results (both null, or both the same number). -/
theorem calculateSharpeRatio_components_agree (input : Option PerformanceData) (rate : ℝ) :
    ResultsDisplay.calculateSharpeRatio input rate
      = ResultsDisplayDup.calculateSharpeRatio input rate := by
  cases input with
  | none => rfl
  | some pd =>
    cases hv : pd.values with
    | none =>
      simp only [ResultsDisplay.calculateSharpeRatio,
        ResultsDisplayDup.calculateSharpeRatio, hv]
    | some values =>
      simp only [ResultsDisplay.calculateSharpeRatio,
        ResultsDisplayDup.calculateSharpeRatio, hv, dailyReturns_dup_eq]

/-- C9: `calculateSharpeRatio` is invariant under positive scaling of the
equity curve: for every values series and every constant `c > 0`, applying it
to the series with each value multiplied by `c` yields the same result as
applying it to the original series, because each daily return
`(v[i] - v[i-1]) / v[i-1]` is unchanged by the scaling. -/
theorem calculateSharpeRatio_scale_invariant (values : List ℝ) (sr : Option ℝ)
    (c : ℝ) (hc : 0 < c) (rate : ℝ) :
    ResultsDisplay.calculateSharpeRatio
        (some { values := some (values.map (fun v => c * v)), sharpe_ratio := sr }) rate
      = ResultsDisplay.calculateSharpeRatio
        (some { values := some values, sharpe_ratio := sr }) rate := by
  have hmap := dailyReturns_map_mul c (ne_of_gt hc) values
  simp only [ResultsDisplay.calculateSharpeRatio, List.length_map, hmap]

/-- Witness for C9 at the concrete series `[1, 2]` scaled by `c = 2`. -/
theorem calculateSharpeRatio_scale_invariant_witness :
    (0 : ℝ) < 2 ∧
    ResultsDisplay.calculateSharpeRatio
        (some { values := some (([1, 2] : List ℝ).map (fun v => 2 * v)), sharpe_ratio := none }) 0.02
      = ResultsDisplay.calculateSharpeRatio
        (some { values := some ([1, 2] : List ℝ), sharpe_ratio := none }) 0.02 :=
  ⟨by norm_num, calculateSharpeRatio_scale_invariant [1, 2] none 2 (by norm_num) 0.02⟩

/-- C1: for every performance data object whose values array has at least two
entries and whose daily simple returns `r[i] = (v[i] - v[i-1]) / v[i-1]` have
nonzero population standard deviation, `calculateSharpeRatio` (with its
default `riskFreeRate` of 0.02) returns
`(mean(r) - ((1 + 0.02)^(1/252) - 1)) / popStdev(r) * sqrt(252)`: the mean
daily return minus the daily risk-free rate derived from a 2% annual rate,
divided by the population standard deviation of the daily returns, annualized
by `sqrt(252)`. -/
theorem calculateSharpeRatio_default_formula (pd : PerformanceData) (values : List ℝ)
    (hv : pd.values = some values) (hlen : 2 ≤ values.length)
    (hsd : popStdDev (specReturns values) ≠ 0) :
    ResultsDisplay.calculateSharpeRatio (some pd) =
      some ((listMean (specReturns values) - ((1 + 0.02) ^ ((1 : ℝ) / 252) - 1))
        / popStdDev (specReturns values) * Real.sqrt 252) := by
  have hret := dailyReturns_eq_specReturns values
  have hlen' := dailyReturns_length values
  simp only [ResultsDisplay.calculateSharpeRatio, hv]
  rw [if_neg (by omega : ¬values.length < 2)]
  rw [if_neg (by rw [hlen']; omega : ¬(ResultsDisplay.dailyReturns values).length = 0)]
  rw [hret, ← List.sum_eq_foldl, ← List.sum_eq_foldl]
  simp only [popStdDev, popVariance, listMean] at hsd ⊢
  rw [if_neg hsd]

/-- Witness for C1 at the concrete series `[1, 2, 3]`, whose returns `[1, 1/2]`
have population standard deviation `sqrt(1/16) ≠ 0`. -/
theorem calculateSharpeRatio_default_formula_witness :
    ({ values := some [1, 2, 3], sharpe_ratio := none } : PerformanceData).values
        = some [1, 2, 3] ∧
    2 ≤ ([1, 2, 3] : List ℝ).length ∧
    popStdDev (specReturns [1, 2, 3]) ≠ 0 ∧
    ResultsDisplay.calculateSharpeRatio
        (some { values := some [1, 2, 3], sharpe_ratio := none }) =
      some ((listMean (specReturns [1, 2, 3]) - ((1 + 0.02) ^ ((1 : ℝ) / 252) - 1))
        / popStdDev (specReturns [1, 2, 3]) * Real.sqrt 252) := by
  have hr : specReturns [(1 : ℝ), 2, 3] = [1, 1 / 2] := by
    simp only [specReturns, List.tail_cons, List.zip_cons_cons, List.zip_nil_right,
      List.map_cons, List.map_nil]
    norm_num
  have hvar : popVariance (specReturns [(1 : ℝ), 2, 3]) = 1 / 16 := by
    rw [hr]
    simp only [popVariance, listMean, List.sum_cons, List.sum_nil, List.map_cons,
      List.map_nil, List.length_cons, List.length_nil]
    norm_num
  have hsd : popStdDev (specReturns [(1 : ℝ), 2, 3]) ≠ 0 := by
    rw [popStdDev, hvar]
    exact Real.sqrt_ne_zero'.mpr (by norm_num)
  exact ⟨rfl, by norm_num, hsd,
    calculateSharpeRatio_default_formula { values := some [1, 2, 3], sharpe_ratio := none }
      [1, 2, 3] rfl (by norm_num) hsd⟩

/-- C2: `calculateSharpeRatio` returns null if and only if its input is
missing, has fewer than two values, or the population standard deviation of
the daily returns is zero; in particular it never divides by zero, returning
null for a flat (constant-value) series instead of a number. -/
theorem calculateSharpeRatio_none_iff (input : Option PerformanceData) (rate : ℝ) :
    ResultsDisplay.calculateSharpeRatio input rate = none ↔
      ∀ pd values, input = some pd → pd.values = some values →
        values.length < 2 ∨ popStdDev (specReturns values) = 0 := by
  cases input with
  | none => simp [ResultsDisplay.calculateSharpeRatio]
  | some pd =>
    cases hv : pd.values with
    | none =>
      simp only [ResultsDisplay.calculateSharpeRatio, hv, true_iff]
      intro pd' values h1 h2
      cases h1
      rw [hv] at h2
      cases h2
    | some values =>
      have hR : (∀ pd' values', some pd = some pd' → pd'.values = some values' →
          values'.length < 2 ∨ popStdDev (specReturns values') = 0) ↔
          (values.length < 2 ∨ popStdDev (specReturns values) = 0) := by
        constructor
        · intro h
          exact h pd values rfl hv
        · intro h pd' values' h1 h2
          cases h1
          rw [hv] at h2
          cases h2
          exact h
      rw [hR]
      by_cases hlen : values.length < 2
      · simp only [ResultsDisplay.calculateSharpeRatio, hv, if_pos hlen]
        simp [hlen]
      · have hlen' := dailyReturns_length values
        simp only [ResultsDisplay.calculateSharpeRatio, hv, if_neg hlen]
        rw [if_neg (by rw [hlen']; omega : ¬(ResultsDisplay.dailyReturns values).length = 0)]
        rw [dailyReturns_eq_specReturns, ← List.sum_eq_foldl, ← List.sum_eq_foldl]
        have hfold : Real.sqrt
            (((specReturns values).map
              (fun ret => (ret - (specReturns values).sum / ((specReturns values).length : ℝ)) ^ 2)).sum
              / ((specReturns values).length : ℝ)) = popStdDev (specReturns values) := rfl
        rw [hfold]
        by_cases hz : popStdDev (specReturns values) = 0
        · simp [hz, hlen]
        · simp [hz, hlen]

/-- C8: in both results components, the Sharpe ratio rendered for a
performance card equals the backend-supplied `sharpe_ratio` only when that
field is non-null, defined, and non-zero; whenever `sharpe_ratio` is null,
undefined, or exactly 0, the displayed value is instead the client-side
recomputation from the values series — so a backend Sharpe ratio of exactly 0
is never the value selected for display. -/
theorem displayedSharpeRatio_selection (pd : PerformanceData) :
    ((∃ x, pd.sharpe_ratio = some x ∧ x ≠ 0) ∧
        ResultsDisplay.displayedSharpeRatio pd = pd.sharpe_ratio ∧
        ResultsDisplayDup.displayedSharpeRatio pd = pd.sharpe_ratio) ∨
      ((pd.sharpe_ratio = none ∨ pd.sharpe_ratio = some 0) ∧
        ResultsDisplay.displayedSharpeRatio pd
          = ResultsDisplay.calculateSharpeRatio (some pd) ∧
        ResultsDisplayDup.displayedSharpeRatio pd
          = ResultsDisplayDup.calculateSharpeRatio (some pd)) := by
  cases hs : pd.sharpe_ratio with
  | none =>
    right
    refine ⟨Or.inl rfl, ?_, ?_⟩
    · simp [ResultsDisplay.displayedSharpeRatio, hs]
    · simp [ResultsDisplayDup.displayedSharpeRatio, hs]
  | some x =>
    by_cases hx : x = 0
    · subst hx
      right
      refine ⟨Or.inr rfl, ?_, ?_⟩
      · simp [ResultsDisplay.displayedSharpeRatio, hs]
      · simp [ResultsDisplayDup.displayedSharpeRatio, hs]
    · left
      refine ⟨⟨x, rfl, hx⟩, ?_, ?_⟩
      · simp [ResultsDisplay.displayedSharpeRatio, hs, hx]
      · simp [ResultsDisplayDup.displayedSharpeRatio, hs, hx]

namespace BacktestForm

/-! Helper lemmas about the per-asset validation pass. -/

theorem checkAssets_weight_errors : ∀ (i : ℕ) (l : List Asset),
    (∀ a ∈ l, ∃ x, a.weight = NumField.val x ∧ 0 < x ∧ x ≤ 1) →
    (checkAssets i l).2.1 = []
  | _, [], _ => rfl
  | i, a :: rest, h => by
    obtain ⟨x, hx, hpos, hle⟩ := h a (List.mem_cons_self a rest)
    have ih := checkAssets_weight_errors (i + 1) rest
      (fun b hb => h b (List.mem_cons_of_mem a hb))
    simp only [checkAssets, hx]
    rw [if_neg (by push_neg; exact ⟨hpos, hle⟩ : ¬(x ≤ 0 ∨ 1 < x))]
    exact ih

theorem checkAssets_weight_sum : ∀ (i : ℕ) (l : List Asset),
    (∀ a ∈ l, ∃ x, a.weight = NumField.val x ∧ 0 < x ∧ x ≤ 1) →
    (checkAssets i l).2.2 = (l.map (fun a => a.weight.parseFloat.getD 0)).sum
  | _, [], _ => rfl
  | i, a :: rest, h => by
    obtain ⟨x, hx, hpos, hle⟩ := h a (List.mem_cons_self a rest)
    have ih := checkAssets_weight_sum (i + 1) rest
      (fun b hb => h b (List.mem_cons_of_mem a hb))
    have hcond : ¬(x ≤ 0 ∨ 1 < x) := by push_neg; exact ⟨hpos, hle⟩
    have hstep : (checkAssets i (a :: rest)).2.2 = (checkAssets (i + 1) rest).2.2 + x := by
      simp only [checkAssets, hx]
      rw [if_neg hcond]
    rw [hstep, ih]
    simp [List.sum_cons, hx, NumField.parseFloat, add_comm]

theorem validateForm_totalWeight_invalid (s : FormState)
    (h : (validateForm s).1.totalWeight = true) : (validateForm s).2 = false := by
  simp only [validateForm] at h ⊢
  rw [h]
  simp

end BacktestForm

/-- C5: for every form submission in which the asset weights (each
individually parsed as a float in `(0, 1]`) sum to a value differing from 1
by more than the tolerance `0.0001` — for example weights summing to 0.9 —
validation fails with the error identifying the weight sum (`totalWeight`),
and `onSubmit` is never invoked, so nothing reaches the valuation pipeline. -/
theorem validateForm_weight_sum_rejects (s : BacktestForm.FormState)
    (hne : s.assets ≠ [])
    (hw : ∀ a ∈ s.assets, ∃ x, a.weight = BacktestForm.NumField.val x ∧ 0 < x ∧ x ≤ 1)
    (hsum : 1 / 10000 <
      |(s.assets.map (fun a => a.weight.parseFloat.getD 0)).sum - 1|) :
    (BacktestForm.validateForm s).1.totalWeight = true ∧
      (BacktestForm.validateForm s).2 = false ∧
      BacktestForm.handleSubmit s = none := by
  have hlen : 0 < s.assets.length := List.length_pos.mpr hne
  have hsum' := BacktestForm.checkAssets_weight_sum 0 s.assets hw
  have htw : (BacktestForm.validateForm s).1.totalWeight = true := by
    simp only [BacktestForm.validateForm]
    rw [hsum']
    simp only [Bool.and_eq_true, decide_eq_true_eq]
    exact ⟨hlen, hsum⟩
  have hvalid := BacktestForm.validateForm_totalWeight_invalid s htw
  exact ⟨htw, hvalid, by simp [BacktestForm.handleSubmit, hvalid]⟩

/-- Witness for C5: two weights 0.5 and 0.4 summing to 0.9 are rejected with
the weight-sum error and nothing is submitted. -/
theorem validateForm_weight_sum_rejects_witness :
    BacktestForm.weightSumState.assets ≠ [] ∧
    (∀ a ∈ BacktestForm.weightSumState.assets,
      ∃ x, a.weight = BacktestForm.NumField.val x ∧ 0 < x ∧ x ≤ 1) ∧
    1 / 10000 <
      |(BacktestForm.weightSumState.assets.map
        (fun a => a.weight.parseFloat.getD 0)).sum - 1| ∧
    ((BacktestForm.validateForm BacktestForm.weightSumState).1.totalWeight = true ∧
      (BacktestForm.validateForm BacktestForm.weightSumState).2 = false ∧
      BacktestForm.handleSubmit BacktestForm.weightSumState = none) := by
  have hw : ∀ a ∈ BacktestForm.weightSumState.assets,
      ∃ x, a.weight = BacktestForm.NumField.val x ∧ 0 < x ∧ x ≤ 1 := by
    intro a ha
    simp only [BacktestForm.weightSumState, List.mem_cons, List.not_mem_nil,
      or_false] at ha
    rcases ha with rfl | rfl
    · exact ⟨1 / 2, rfl, by norm_num, by norm_num⟩
    · exact ⟨2 / 5, rfl, by norm_num, by norm_num⟩
  have hsum : 1 / 10000 <
      |(BacktestForm.weightSumState.assets.map
        (fun a => a.weight.parseFloat.getD 0)).sum - 1| := by
    simp only [BacktestForm.weightSumState, List.map_cons, List.map_nil, List.sum_cons,
      List.sum_nil, BacktestForm.NumField.parseFloat, Option.getD_some]
    rw [abs_of_nonpos (by norm_num)]
    norm_num
  exact ⟨by simp [BacktestForm.weightSumState], hw, hsum,
    validateForm_weight_sum_rejects BacktestForm.weightSumState
      (by simp [BacktestForm.weightSumState]) hw hsum⟩

/-- C6: a form submission whose start date is not strictly earlier than its
end date (the dates inverted or equal) is rejected with the `dateRange`
validation error and `onSubmit` is never invoked. -/
theorem validateForm_date_range_rejects (s : BacktestForm.FormState) (d1 d2 : ℤ)
    (h1 : s.startDate = some d1) (h2 : s.endDate = some d2) (hle : d2 ≤ d1) :
    (BacktestForm.validateForm s).1.dateRange = true ∧
      (BacktestForm.validateForm s).2 = false ∧
      BacktestForm.handleSubmit s = none := by
  have hdr : (BacktestForm.validateForm s).1.dateRange = true := by
    simp only [BacktestForm.validateForm, h1, h2]
    simp [hle]
  have hvalid : (BacktestForm.validateForm s).2 = false := by
    simp only [BacktestForm.validateForm, h1, h2]
    simp [hle]
  exact ⟨hdr, hvalid, by simp [BacktestForm.handleSubmit, hvalid]⟩

/-- Witness for C6 at equal start and end dates. -/
theorem validateForm_date_range_rejects_witness :
    BacktestForm.invertedDateState.startDate = some 365 ∧
    BacktestForm.invertedDateState.endDate = some 365 ∧
    (365 : ℤ) ≤ 365 ∧
    ((BacktestForm.validateForm BacktestForm.invertedDateState).1.dateRange = true ∧
      (BacktestForm.validateForm BacktestForm.invertedDateState).2 = false ∧
      BacktestForm.handleSubmit BacktestForm.invertedDateState = none) :=
  ⟨rfl, rfl, by decide,
    validateForm_date_range_rejects BacktestForm.invertedDateState 365 365 rfl rfl
      (by decide)⟩

/-! Evaluation of the concrete valid one-asset state, shared by witnesses. -/

theorem validMonthlyState_valid :
    (BacktestForm.validateForm BacktestForm.validMonthlyState).2 = true := by
  have hck : BacktestForm.checkAssets 0 BacktestForm.validMonthlyState.assets
      = ([], [], 1) := by
    simp [BacktestForm.validMonthlyState, BacktestForm.checkAssets,
      show jsTrim "aapl" = "aapl" from rfl]
  simp only [BacktestForm.validateForm, hck]
  norm_num [BacktestForm.validMonthlyState]
  simp

theorem validMonthlyState_submits :
    BacktestForm.handleSubmit BacktestForm.validMonthlyState
      = some { assets := [{ ticker := "AAPL", weight := some 1 }],
               initial_investment := some 10000,
               start_date := some 0,
               end_date := some 365,
               benchmark_ticker := some "SPY",
               rebalance := some "Monthly" } := by
  simp only [BacktestForm.handleSubmit, validMonthlyState_valid]
  simp [BacktestForm.validMonthlyState, BacktestForm.NumField.parseFloat,
    show jsTrim " spy " = "spy" from rfl, show jsToUpper "spy" = "SPY" from rfl,
    show jsToUpper "aapl" = "AAPL" from rfl]

/-- C4: evaluation of the failing input for the claim that the form submits
between 1 and 5 assets.  `handleAddAsset` places no cap on the row count and
`validateForm` never checks an upper bound, so the eight-asset state (equal
weights of 1/8) validates and is submitted with all eight assets — although
the repository README promises "Add up to 5 stocks". -/
theorem handleSubmit_allows_eight_assets :
    BacktestForm.eightAssetState.assets.length = 8 ∧
    (BacktestForm.validateForm BacktestForm.eightAssetState).2 = true ∧
    (BacktestForm.handleSubmit BacktestForm.eightAssetState).map (fun fd => fd.assets.length)
      = some 8 := by
  have hck : BacktestForm.checkAssets 0 BacktestForm.eightAssetState.assets
      = ([], [], 1) := by
    simp [BacktestForm.eightAssetState, BacktestForm.checkAssets,
      show jsTrim "AAA" = "AAA" from rfl, show jsTrim "BBB" = "BBB" from rfl,
      show jsTrim "CCC" = "CCC" from rfl, show jsTrim "DDD" = "DDD" from rfl,
      show jsTrim "EEE" = "EEE" from rfl, show jsTrim "FFF" = "FFF" from rfl,
      show jsTrim "GGG" = "GGG" from rfl, show jsTrim "HHH" = "HHH" from rfl]
    norm_num
  have hvf : (BacktestForm.validateForm BacktestForm.eightAssetState).2 = true := by
    simp only [BacktestForm.validateForm, hck]
    norm_num [BacktestForm.eightAssetState]
    simp
  refine ⟨by simp [BacktestForm.eightAssetState], hvf, ?_⟩
  simp only [BacktestForm.handleSubmit, hvf]
  simp [BacktestForm.eightAssetState]

/-- C7: in every request the backtest form submits, the `rebalance` field is
the select state mapped so that `'None'` becomes null; since the select's
only option values are `'None'`, `'Monthly'`, `'Quarterly'` and `'Annually'`
(initial state `'None'`), the submitted value is exactly one of the strings
`"Monthly"`, `"Quarterly"`, `"Annually"`, or null, and no other value can be
submitted. -/
theorem handleSubmit_rebalance_closed (s : BacktestForm.FormState)
    (fd : BacktestForm.FormData)
    (hopt : s.rebalance ∈ BacktestForm.rebalanceOptions)
    (hsub : BacktestForm.handleSubmit s = some fd) :
    fd.rebalance = (if s.rebalance = "None" then none else some s.rebalance) ∧
      (fd.rebalance = none ∨ fd.rebalance = some "Monthly" ∨
        fd.rebalance = some "Quarterly" ∨ fd.rebalance = some "Annually") ∧
      (s.rebalance = "None" → fd.rebalance = none) := by
  simp only [BacktestForm.handleSubmit] at hsub
  by_cases hv : (BacktestForm.validateForm s).2 = true
  · rw [if_pos hv] at hsub
    injection hsub with h
    subst h
    refine ⟨rfl, ?_, ?_⟩
    · simp only [BacktestForm.rebalanceOptions, List.mem_cons, List.not_mem_nil,
        or_false] at hopt
      rcases hopt with h | h | h | h <;> simp [h]
    · intro h
      simp [h]
  · rw [if_neg hv] at hsub
    cases hsub

/-- Witness for C7: the valid monthly state submits and its payload carries
one of the four allowed rebalance values. -/
theorem handleSubmit_rebalance_closed_witness :
    BacktestForm.validMonthlyState.rebalance ∈ BacktestForm.rebalanceOptions ∧
    ∃ fd, BacktestForm.handleSubmit BacktestForm.validMonthlyState = some fd ∧
      (fd.rebalance = none ∨ fd.rebalance = some "Monthly" ∨
        fd.rebalance = some "Quarterly" ∨ fd.rebalance = some "Annually") := by
  refine ⟨by simp [BacktestForm.validMonthlyState, BacktestForm.rebalanceOptions],
    _, validMonthlyState_submits, ?_⟩
  exact (handleSubmit_rebalance_closed BacktestForm.validMonthlyState _
    (by simp [BacktestForm.validMonthlyState, BacktestForm.rebalanceOptions])
    validMonthlyState_submits).2.1

/-- C10: for every request the backtest form submits, `benchmark_ticker` is
null exactly when the benchmark input field is empty or whitespace-only
(trimmed text empty), and otherwise equals that input trimmed and converted
to upper case; each submitted asset ticker equals the entered ticker
upper-cased, and each submitted weight is the parsed float of its field. -/
theorem handleSubmit_payload_fields (s : BacktestForm.FormState)
    (fd : BacktestForm.FormData)
    (hsub : BacktestForm.handleSubmit s = some fd) :
    (fd.benchmark_ticker = none ↔ jsTrim s.benchmarkTicker = "") ∧
      (jsTrim s.benchmarkTicker ≠ "" →
        fd.benchmark_ticker = some (jsToUpper (jsTrim s.benchmarkTicker))) ∧
      fd.assets.map BacktestForm.SubmittedAsset.ticker
        = s.assets.map (fun a => jsToUpper a.ticker) ∧
      fd.assets.map BacktestForm.SubmittedAsset.weight
        = s.assets.map (fun a => a.weight.parseFloat) := by
  simp only [BacktestForm.handleSubmit] at hsub
  by_cases hv : (BacktestForm.validateForm s).2 = true
  · rw [if_pos hv] at hsub
    injection hsub with h
    subst h
    refine ⟨?_, ?_, ?_, ?_⟩
    · by_cases hb : jsTrim s.benchmarkTicker = "" <;> simp [hb]
    · intro hb
      simp [hb]
    · simp [List.map_map, Function.comp]
    · simp [List.map_map, Function.comp]
  · rw [if_neg hv] at hsub
    cases hsub

/-- Witness for C10: the valid monthly state submits, its padded lower-case
benchmark field becomes `some "SPY"`, its ticker is upper-cased and its
weight is the parsed value. -/
theorem handleSubmit_payload_fields_witness :
    ∃ fd, BacktestForm.handleSubmit BacktestForm.validMonthlyState = some fd ∧
      fd.benchmark_ticker = some "SPY" ∧
      fd.assets.map BacktestForm.SubmittedAsset.ticker = ["AAPL"] ∧
      fd.assets.map BacktestForm.SubmittedAsset.weight = [some 1] := by
  have h := handleSubmit_payload_fields BacktestForm.validMonthlyState _
    validMonthlyState_submits
  refine ⟨_, validMonthlyState_submits, ?_, ?_, ?_⟩
  · have hb := h.2.1
      (by simp [BacktestForm.validMonthlyState, show jsTrim " spy " = "spy" from rfl])
    rw [hb]
    simp [BacktestForm.validMonthlyState, show jsTrim " spy " = "spy" from rfl,
      show jsToUpper "spy" = "SPY" from rfl]
  · rw [h.2.2.1]
    simp [BacktestForm.validMonthlyState, show jsToUpper "aapl" = "AAPL" from rfl]
  · rw [h.2.2.2]
    simp [BacktestForm.validMonthlyState, BacktestForm.NumField.parseFloat]
